import Mathlib

/-!
Shallow embedding of the Digital-Twin-of-Smart-Meter firmware core:
the INA219 power-metrology driver (src/Components/ina_curent_sensor.py),
the relay / fan / buzzer actuators (src/Components/dual_channel_relay.py,
src/Components/Fan.py, src/Components/buzzer.py), the DHT11 wrapper
(src/Components/dht11.py), and the safety-check section plus the MQTT
command callback of the main loop (src/main.py).

Python floats are embedded as rationals (ℚ); 16-bit register values are
naturals below 2^16 with the two's-complement decode made explicit;
a MicroPython `Pin` is its output-level value (0 or 1).  Buzzer activity
during a step is recorded as the list of `times` arguments passed to
`Buzzer.beep`, in order of emission.
-/

namespace SmartMeter

/-! ## INA219 driver (src/Components/ina_curent_sensor.py) -/

/-- Driver state: shunt resistance and the calibration-derived scale
factors.  `current_lsb`/`power_lsb` are `none` until `configure()` runs,
mirroring `self.current_lsb = None` / `self.power_lsb = None` in
`INA219.__init__`. -/
structure INA219 where
  r_shunt : ℚ
  calibration : Option ℤ
  current_lsb : Option ℚ
  power_lsb : Option ℚ
deriving DecidableEq

/-- `INA219.__init__`: stores the shunt value, leaves calibration and both
LSBs unset (the I2C scan has no effect on driver state). -/
def INA219.init (r_shunt : ℚ) : INA219 :=
  { r_shunt := r_shunt, calibration := none, current_lsb := none, power_lsb := none }

/-- `INA219._read_register_signed`: two's-complement decode of a 16-bit
register value (`if val & 0x8000: val = val - (1 << 16)`). -/
def readSigned (val : ℕ) : ℤ :=
  if val &&& 0x8000 ≠ 0 then (val : ℤ) - (1 <<< 16) else (val : ℤ)

/-- `INA219.configure`: optionally replaces the shunt value, records the
calibration word, and computes
`current_lsb = 0.04096 / (calibration * r_shunt)` and
`power_lsb = 20.0 * current_lsb`. -/
def INA219.configure (s : INA219) (calibration : ℤ) (r_shunt : Option ℚ) : INA219 :=
  let rs : ℚ := r_shunt.getD s.r_shunt
  let c_lsb : ℚ := (0.04096 : ℚ) / ((calibration : ℚ) * rs)
  { r_shunt := rs, calibration := some calibration,
    current_lsb := some c_lsb, power_lsb := some ((20 : ℚ) * c_lsb) }

/-- `INA219.get_shunt_voltage` applied to the raw 16-bit register value:
signed decode scaled by 10 µV/LSB. -/
def INA219.get_shunt_voltage (raw : ℕ) : ℚ :=
  (readSigned raw : ℚ) * (10e-6 : ℚ)

/-- `INA219.get_bus_voltage` applied to the raw 16-bit register value:
`raw = raw >> 3` then `raw * 4e-3`. -/
def INA219.get_bus_voltage (raw : ℕ) : ℚ :=
  ((raw >>> 3 : ℕ) : ℚ) * (4e-3 : ℚ)

/-- `INA219.get_current` applied to the raw 16-bit register value: signed
decode times `current_lsb`; when `current_lsb is None` the code falls back
to `assumed_lsb = 0.0001` and still returns a number. -/
def INA219.get_current (s : INA219) (raw : ℕ) : ℚ :=
  match s.current_lsb with
  | none => (readSigned raw : ℚ) * (0.0001 : ℚ)
  | some l => (readSigned raw : ℚ) * l

/-- `INA219.get_power` applied to the raw 16-bit register value: unsigned
register times `power_lsb`; when `power_lsb is None` the code falls back
to `assumed_power_lsb = 0.002` and still returns a number. -/
def INA219.get_power (s : INA219) (raw : ℕ) : ℚ :=
  match s.power_lsb with
  | none => (raw : ℚ) * (0.002 : ℚ)
  | some l => (raw : ℚ) * l

/-! ## Actuators (src/Components/dual_channel_relay.py, Fan.py) -/

/-- `DualRelay`: the two output-pin levels and the polarity flag. -/
structure DualRelay where
  relay1 : ℕ
  relay2 : ℕ
  active_high : Bool
deriving DecidableEq

/-- `DualRelay.on`: drive the selected channel to the active level. -/
def DualRelay.on (r : DualRelay) (channel : ℕ) : DualRelay :=
  if channel = 1 then { r with relay1 := if r.active_high then 1 else 0 }
  else if channel = 2 then { r with relay2 := if r.active_high then 1 else 0 }
  else r

/-- `DualRelay.off`: drive the selected channel to the inactive level. -/
def DualRelay.off (r : DualRelay) (channel : ℕ) : DualRelay :=
  if channel = 1 then { r with relay1 := if r.active_high then 0 else 1 }
  else if channel = 2 then { r with relay2 := if r.active_high then 0 else 1 }
  else r

/-- `DualRelay.__init__`: after constructing the pins it calls
`self.off(1)` and `self.off(2)`, so both channels start at the inactive
level for the chosen polarity. -/
def DualRelay.init (active_high : Bool) : DualRelay :=
  (({ relay1 := 0, relay2 := 0, active_high := active_high : DualRelay }).off 1).off 2

/-- `DualRelay.state`: reads the pin level back and reports "ON" exactly
when the level matches the active polarity. -/
def DualRelay.state (r : DualRelay) (channel : ℕ) : String :=
  if channel = 1 ∨ channel = 2 then
    let relay_state := if channel = 1 then r.relay1 else r.relay2
    if (r.active_high ∧ relay_state = 1) ∨ (¬ r.active_high ∧ relay_state = 0)
    then "ON" else "OFF"
  else "UNKNOWN"

/-- `DualRelay.all_off`: `self.off(1); self.off(2)`. -/
def DualRelay.all_off (r : DualRelay) : DualRelay :=
  (r.off 1).off 2

/-- `DCFan`: the relay-pin level and the polarity flag. -/
structure DCFan where
  relay : ℕ
  active_high : Bool
deriving DecidableEq

/-- `DCFan.on`. -/
def DCFan.on (f : DCFan) : DCFan :=
  { f with relay := if f.active_high then 1 else 0 }

/-- `DCFan.off`. -/
def DCFan.off (f : DCFan) : DCFan :=
  { f with relay := if f.active_high then 0 else 1 }

/-- `DCFan.__init__`: constructs the pin then calls `self.off()`. -/
def DCFan.init (active_high : Bool) : DCFan :=
  ({ relay := 0, active_high := active_high : DCFan }).off

/-- `DCFan.state`: "ON" exactly when the pin level matches the polarity. -/
def DCFan.state (f : DCFan) : String :=
  if (f.active_high ∧ f.relay = 1) ∨ (¬ f.active_high ∧ f.relay = 0)
  then "ON" else "OFF"

/-! ## Main-loop safety checks (src/main.py, lines 242–282) -/

/-- Threshold constant `TEMP_FAN_ON = 45.0` from src/main.py. -/
def TEMP_FAN_ON : ℚ := 45

/-- Threshold constant `TEMP_FAN_OFF = 38.0` from src/main.py. -/
def TEMP_FAN_OFF : ℚ := 38

/-- Threshold constant `DHT_TEMP_SHUTOFF = 60.0` from src/main.py. -/
def DHT_TEMP_SHUTOFF : ℚ := 60

/-- Threshold constant `VOLTAGE_OVER_THRESHOLD = 14.0` from src/main.py. -/
def VOLTAGE_OVER_THRESHOLD : ℚ := 14

/-- Threshold constant `CURRENT_OVERLOAD_MA = 2000` from src/main.py. -/
def CURRENT_OVERLOAD_MA : ℚ := 2000

/-- The actuator state the main loop mutates: the two relay banks
`relays_1` / `relays_2` and the fan. -/
structure LoopState where
  relays_1 : DualRelay
  relays_2 : DualRelay
  fan : DCFan
deriving DecidableEq

/-- The actuator state right after the hardware-init section of
src/main.py: `DualRelay(…, active_high=True)` twice and
`DCFan(…, active_high=True)`. -/
def mainInit : LoopState :=
  { relays_1 := DualRelay.init true, relays_2 := DualRelay.init true,
    fan := DCFan.init true }

/-- First safety check in the loop (`if analog_t is not None: …`):
`analog_t >= TEMP_FAN_ON` turns the fan on and beeps twice;
`analog_t <= TEMP_FAN_OFF` (the `elif`) turns the fan off; otherwise —
and when the reading is absent — nothing happens. -/
def analogFanStep (s : LoopState) (analog_t : Option ℚ) : LoopState × List ℕ :=
  match analog_t with
  | none => (s, [])
  | some t =>
    if TEMP_FAN_ON ≤ t then ({ s with fan := s.fan.on }, [2])
    else if t ≤ TEMP_FAN_OFF then ({ s with fan := s.fan.off }, [])
    else (s, [])

/-- Second safety check (`if dht_t is not None and dht_t >= DHT_TEMP_SHUTOFF`):
switches both relay banks off and beeps four times; an absent DHT reading
skips the branch entirely. -/
def ambientStep (s : LoopState) (dht_t : Option ℚ) : LoopState × List ℕ :=
  match dht_t with
  | none => (s, [])
  | some t =>
    if DHT_TEMP_SHUTOFF ≤ t then
      ({ s with relays_1 := s.relays_1.all_off, relays_2 := s.relays_2.all_off }, [4])
    else (s, [])

/-- Third safety check (`if bus_v is not None and bus_v >= VOLTAGE_OVER_THRESHOLD`):
both relay banks off, fan on, three beeps. -/
def overvoltageStep (s : LoopState) (bus_v : Option ℚ) : LoopState × List ℕ :=
  match bus_v with
  | none => (s, [])
  | some v =>
    if VOLTAGE_OVER_THRESHOLD ≤ v then
      ({ relays_1 := s.relays_1.all_off, relays_2 := s.relays_2.all_off,
         fan := s.fan.on }, [3])
    else (s, [])

/-- Fourth (last) safety check
(`if current_mA is not None and current_mA >= CURRENT_OVERLOAD_MA`):
both relay banks off, three beeps; the fan is not touched. -/
def overcurrentStep (s : LoopState) (current_mA : Option ℚ) : LoopState × List ℕ :=
  match current_mA with
  | none => (s, [])
  | some c =>
    if CURRENT_OVERLOAD_MA ≤ c then
      ({ s with relays_1 := s.relays_1.all_off, relays_2 := s.relays_2.all_off }, [3])
    else (s, [])

/-- The whole "local safety checks" section of one loop iteration: the four
independent `if` statements of src/main.py lines 242–282, run in source
order on the latest readings, with the buzzer patterns collected in
emission order. -/
def safetyStep (s : LoopState) (analog_t dht_t bus_v current_mA : Option ℚ) :
    LoopState × List ℕ :=
  let r1 := analogFanStep s analog_t
  let r2 := ambientStep r1.1 dht_t
  let r3 := overvoltageStep r2.1 bus_v
  let r4 := overcurrentStep r3.1 current_mA
  (r4.1, r1.2 ++ r2.2 ++ r3.2 ++ r4.2)

/-! ## Price accumulation (src/main.py, lines 236–240) -/

/-- `RATE_PER_KWH = 6.50` from src/main.py. -/
def RATE_PER_KWH : ℚ := 6.50

/-- One cycle of the price accumulator: when `price_recording` is set,
`price_acc += ((power_w / 1000.0) * (1.0 / 3600.0)) * RATE_PER_KWH`. -/
def priceStep (price_recording : Bool) (price_acc : ℚ) (power_w : ℚ) : ℚ :=
  if price_recording then
    price_acc + (power_w / 1000) * (1 / 3600) * RATE_PER_KWH
  else price_acc

/-! ## MQTT command callback (src/main.py, lines 105–144) -/

/-- An inbound command message as the callback sees it: either the
`ujson.loads` call raised (malformed payload) or it produced an object
whose `cmd` field is the given optional string and whose `times` field
defaults to 1 (`int(data.get("times", 1))`). -/
inductive Payload where
  | malformed
  | obj (cmd : Option String) (times : ℤ)
deriving DecidableEq

/-- `mqtt_message_callback`: a parse failure returns before any actuator
access; otherwise the `if/elif` chain over `cmd` fires at most one branch,
and an unrecognized `cmd` value falls through with no effect.  The second
component lists the `times` arguments of the `buzzer.beep` calls made
(`Buzzer.beep` runs its pulse loop `range(times)`, hence `Int.toNat`). -/
def mqtt_message_callback (p : Payload) (s : LoopState) : LoopState × List ℕ :=
  match p with
  | .malformed => (s, [])
  | .obj cmd times =>
    if cmd = some "relays_off" ∨ cmd = some "shutdown" then
      ({ relays_1 := s.relays_1.all_off, relays_2 := s.relays_2.all_off,
         fan := s.fan.on }, [3])
    else if cmd = some "fan_on" then ({ s with fan := s.fan.on }, [])
    else if cmd = some "fan_off" then ({ s with fan := s.fan.off }, [])
    else if cmd = some "beep" then (s, [times.toNat])
    else if cmd = some "warning" then (s, [2])
    else (s, [])

/-! ## Helper lemmas -/

/-- Turning the fan on makes `state()` report "ON", for either polarity. -/
theorem DCFan.state_on (f : DCFan) : f.on.state = "ON" := by
  cases f with
  | mk relay active_high => cases active_high <;> simp [DCFan.on, DCFan.state]

/-- Turning the fan off makes `state()` report "OFF", for either polarity. -/
theorem DCFan.state_off (f : DCFan) : f.off.state = "OFF" := by
  cases f with
  | mk relay active_high => cases active_high <;> simp [DCFan.off, DCFan.state]

/-- After `all_off`, both channels report "OFF", for either polarity. -/
theorem DualRelay.state_all_off (r : DualRelay) :
    r.all_off.state 1 = "OFF" ∧ r.all_off.state 2 = "OFF" := by
  cases r with
  | mk r1 r2 active_high =>
    cases active_high <;>
      simp [DualRelay.all_off, DualRelay.off, DualRelay.state]

end SmartMeter

open SmartMeter

/-- C5: for all calibration > 0 and shunt_ohm > 0, configure stores
`current_lsb = 0.04096/(calibration*shunt_ohm)` and
`power_lsb = 20*current_lsb`; in particular calibration = 4096 with
shunt = 0.1 yields current_lsb = 0.0001 and power_lsb = 0.002. -/
theorem C5_configure_lsb (s : INA219) (calibration : ℤ) (shunt : ℚ)
    (hc : 0 < calibration) (hs : 0 < shunt) :
    (s.configure calibration (some shunt)).current_lsb
        = some ((0.04096 : ℚ) / ((calibration : ℚ) * shunt)) ∧
    (s.configure calibration (some shunt)).power_lsb
        = some (20 * ((0.04096 : ℚ) / ((calibration : ℚ) * shunt))) ∧
    (s.configure 4096 (some (1/10))).current_lsb = some ((0.0001 : ℚ)) ∧
    (s.configure 4096 (some (1/10))).power_lsb = some ((0.002 : ℚ)) := by
  refine ⟨rfl, rfl, ?_, ?_⟩ <;> norm_num [INA219.configure]

/-- C5 witness: the theorem applied at the state produced by
`INA219.__init__` with the default 0.1 Ω shunt, calibration 4096. -/
theorem C5_configure_lsb_witness :
    ((INA219.init (1/10)).configure 4096 (some (1/10))).current_lsb
        = some ((0.04096 : ℚ) / (((4096 : ℤ) : ℚ) * (1/10))) ∧
    ((INA219.init (1/10)).configure 4096 (some (1/10))).current_lsb
        = some ((0.0001 : ℚ)) :=
  ⟨(C5_configure_lsb (INA219.init (1/10)) 4096 (1/10) (by norm_num) (by norm_num)).1,
   (C5_configure_lsb (INA219.init (1/10)) 4096 (1/10) (by norm_num) (by norm_num)).2.2.1⟩

/-- C1: the claim fails on the code.  In the state left by
`INA219.__init__` (configure() never called, `current_lsb`/`power_lsb`
still `None`), `get_current` and `get_power` do not fail: they return
values computed from the substituted fallback scale factors
(`assumed_lsb = 0.0001`, `assumed_power_lsb = 0.002`).  Raw current
register 1500 read while uncalibrated yields 0.15 A; raw power register
100 yields 0.2 W. -/
theorem C1_uncalibrated_reads_return_guessed_values :
    (INA219.init (1/10)).current_lsb = none ∧
    (INA219.init (1/10)).power_lsb = none ∧
    (INA219.init (1/10)).get_current 1500 = 3/20 ∧
    (INA219.init (1/10)).get_power 100 = 1/5 := by
  have h : readSigned 1500 = 1500 := by decide
  refine ⟨rfl, rfl, ?_, ?_⟩
  · simp only [INA219.get_current, INA219.init, h]
    norm_num
  · simp only [INA219.get_power, INA219.init]
    norm_num

/-- C6: for every 16-bit raw bus-voltage register value, `get_bus_voltage`
returns `(raw >> 3) * 0.004` volts, i.e. it divides by 8 (discarding the
3 status bits) and scales by 4 mV per LSB, and the shifted value fits in
13 bits. -/
theorem C6_bus_voltage (raw : ℕ) (h : raw < 2^16) :
    INA219.get_bus_voltage raw = ((raw / 8 : ℕ) : ℚ) * (4/1000) ∧
    raw >>> 3 < 2^13 := by
  constructor
  · simp only [INA219.get_bus_voltage, Nat.shiftRight_eq_div_pow]
    norm_num
  · rw [Nat.shiftRight_eq_div_pow]
    omega

/-- C6 witness: the theorem applied at raw = 40000. -/
theorem C6_bus_voltage_witness :
    INA219.get_bus_voltage 40000 = ((40000 / 8 : ℕ) : ℚ) * (4/1000) ∧
    40000 >>> 3 < 2^13 :=
  C6_bus_voltage 40000 (by norm_num)

/-- C10: immediately after construction, for either polarity, every
actuator reports OFF: both `DualRelay` channels and the fan are driven to
the inactive line level by the constructors. -/
theorem C10_actuators_start_off (active_high : Bool) :
    (DualRelay.init active_high).state 1 = "OFF" ∧
    (DualRelay.init active_high).state 2 = "OFF" ∧
    (DCFan.init active_high).state = "OFF" := by
  cases active_high <;> decide

/-- C3: the analog-fan rule implements true hysteresis: starting from any
actuator state, a reading of 46.0 turns the fan ON, a subsequent 40.0
leaves it ON, a subsequent 37.0 turns it OFF; and every reading strictly
between TEMP_FAN_OFF and TEMP_FAN_ON leaves the whole state (and the
buzzer) unchanged. -/
theorem C3_fan_hysteresis (s : LoopState) (t : ℚ)
    (h1 : TEMP_FAN_OFF < t) (h2 : t < TEMP_FAN_ON) :
    (safetyStep s (some 46) none none none).1.fan.state = "ON" ∧
    (safetyStep (safetyStep s (some 46) none none none).1
        (some 40) none none none).1.fan.state = "ON" ∧
    (safetyStep (safetyStep (safetyStep s (some 46) none none none).1
        (some 40) none none none).1 (some 37) none none none).1.fan.state = "OFF" ∧
    analogFanStep s (some t) = (s, []) := by
  have e46 : safetyStep s (some 46) none none none
      = ({ s with fan := s.fan.on }, [2]) := by
    norm_num [safetyStep, analogFanStep, ambientStep, overvoltageStep, overcurrentStep,
      TEMP_FAN_ON, TEMP_FAN_OFF]
  have e40 : safetyStep { s with fan := s.fan.on } (some 40) none none none
      = ({ s with fan := s.fan.on }, []) := by
    norm_num [safetyStep, analogFanStep, ambientStep, overvoltageStep, overcurrentStep,
      TEMP_FAN_ON, TEMP_FAN_OFF]
  have e37 : safetyStep { s with fan := s.fan.on } (some 37) none none none
      = ({ s with fan := (s.fan.on).off }, []) := by
    norm_num [safetyStep, analogFanStep, ambientStep, overvoltageStep, overcurrentStep,
      TEMP_FAN_ON, TEMP_FAN_OFF]
  refine ⟨?_, ?_, ?_, ?_⟩
  · rw [e46]; exact DCFan.state_on s.fan
  · rw [e46, e40]; exact DCFan.state_on s.fan
  · rw [e46, e40, e37]; exact DCFan.state_off (s.fan.on)
  · simp only [analogFanStep, TEMP_FAN_ON, TEMP_FAN_OFF] at *
    rw [if_neg (not_le.mpr h2), if_neg (not_le.mpr h1)]

/-- C3 witness: the theorem applied at the initial actuator state with the
in-between reading 40.0. -/
theorem C3_fan_hysteresis_witness :
    (safetyStep mainInit (some 46) none none none).1.fan.state = "ON" ∧
    (safetyStep (safetyStep mainInit (some 46) none none none).1
        (some 40) none none none).1.fan.state = "ON" ∧
    (safetyStep (safetyStep (safetyStep mainInit (some 46) none none none).1
        (some 40) none none none).1 (some 37) none none none).1.fan.state = "OFF" ∧
    analogFanStep mainInit (some 40) = (mainInit, []) :=
  C3_fan_hysteresis mainInit 40 (by norm_num [TEMP_FAN_OFF]) (by norm_num [TEMP_FAN_ON])

/-- C4: an absent ambient (DHT) reading never takes the ambient-emergency
branch: the check leaves the state untouched and emits nothing, and no
cycle with an absent ambient reading ever emits buzzer pattern B
(4 pulses), whatever the other readings are; the missing value is never
coerced to zero. -/
theorem C4_absent_ambient_never_triggers_emergency
    (s : LoopState) (analog_t bus_v current_mA : Option ℚ) :
    ambientStep s none = (s, []) ∧
    (4 : ℕ) ∉ (safetyStep s analog_t none bus_v current_mA).2 := by
  refine ⟨rfl, ?_⟩
  have h1 : (analogFanStep s analog_t).2 = [] ∨ (analogFanStep s analog_t).2 = [2] := by
    unfold analogFanStep
    rcases analog_t with _ | t
    · exact Or.inl rfl
    · dsimp only
      split
      · exact Or.inr rfl
      · split
        · exact Or.inl rfl
        · exact Or.inl rfl
  have h3 : ∀ s2, (overvoltageStep s2 bus_v).2 = [] ∨ (overvoltageStep s2 bus_v).2 = [3] := by
    intro s2
    unfold overvoltageStep
    rcases bus_v with _ | v
    · exact Or.inl rfl
    · dsimp only
      split
      · exact Or.inr rfl
      · exact Or.inl rfl
  have h4 : ∀ s3, (overcurrentStep s3 current_mA).2 = [] ∨
      (overcurrentStep s3 current_mA).2 = [3] := by
    intro s3
    unfold overcurrentStep
    rcases current_mA with _ | cm
    · exact Or.inl rfl
    · dsimp only
      split
      · exact Or.inr rfl
      · exact Or.inl rfl
  simp only [safetyStep, ambientStep]
  rcases h1 with e1 | e1 <;>
    rcases h3 ((ambientStep (analogFanStep s analog_t).1 none).1) with e3 | e3 <;>
    rcases h4 ((overvoltageStep (ambientStep (analogFanStep s analog_t).1 none).1
        bus_v).1) with e4 | e4 <;>
    simp [e1, e3, e4, ambientStep] at *

/-- C2 counterexample: the overcurrent check is not evaluated first and
does not short-circuit the other checks.  With the fan initially ON,
analog reading 37.0 and current 2500 mA (≥ CURRENT_OVERLOAD_MA = 2000),
the claim predicts the fan is left ON (remaining checks skipped), but the
cycle turns the fan OFF: the analog-fan rule runs before the overcurrent
check. -/
theorem C2_overcurrent_priority_counterexample :
    CURRENT_OVERLOAD_MA ≤ 2500 ∧
    ({ mainInit with fan := mainInit.fan.on } : LoopState).fan.state = "ON" ∧
    (safetyStep { mainInit with fan := mainInit.fan.on }
        (some 37) none none (some 2500)).1.fan.state = "OFF" ∧
    (safetyStep { mainInit with fan := mainInit.fan.on }
        (some 37) none none (some 2500)).2 = [3] := by
  decide

/-- C2 amended: whenever current_mA ≥ CURRENT_OVERLOAD_MA, the cycle ends
with both relay banks fully OFF and a 3-pulse buzzer pattern emitted; but
the overcurrent check is evaluated last, after the analog-fan, ambient and
overvoltage checks, which are not skipped. -/
theorem C2_overcurrent_forces_relays_off (s : LoopState)
    (analog_t dht_t bus_v : Option ℚ) (c : ℚ) (h : CURRENT_OVERLOAD_MA ≤ c) :
    ((safetyStep s analog_t dht_t bus_v (some c)).1.relays_1.state 1 = "OFF" ∧
     (safetyStep s analog_t dht_t bus_v (some c)).1.relays_1.state 2 = "OFF") ∧
    ((safetyStep s analog_t dht_t bus_v (some c)).1.relays_2.state 1 = "OFF" ∧
     (safetyStep s analog_t dht_t bus_v (some c)).1.relays_2.state 2 = "OFF") ∧
    3 ∈ (safetyStep s analog_t dht_t bus_v (some c)).2 := by
  simp only [safetyStep, overcurrentStep, if_pos h]
  refine ⟨DualRelay.state_all_off _, DualRelay.state_all_off _, ?_⟩
  simp [List.mem_append]

/-- C2 amended witness: the theorem applied at the initial state with
current 2500 mA and all other readings absent. -/
theorem C2_overcurrent_forces_relays_off_witness :
    ((safetyStep mainInit none none none (some 2500)).1.relays_1.state 1 = "OFF" ∧
     (safetyStep mainInit none none none (some 2500)).1.relays_1.state 2 = "OFF") ∧
    ((safetyStep mainInit none none none (some 2500)).1.relays_2.state 1 = "OFF" ∧
     (safetyStep mainInit none none none (some 2500)).1.relays_2.state 2 = "OFF") ∧
    3 ∈ (safetyStep mainInit none none none (some 2500)).2 :=
  C2_overcurrent_forces_relays_off mainInit none none none 2500
    (by norm_num [CURRENT_OVERLOAD_MA])

/-- C7 counterexample: buzzer pattern C is not restricted to the
transition into the fan-active state.  With the fan already ON and analog
reading 46.0 ≥ TEMP_FAN_ON, the claim predicts no pulses from the
analog-fan rule, but the rule beeps twice again. -/
theorem C7_beep_on_transition_counterexample :
    ({ mainInit with fan := mainInit.fan.on } : LoopState).fan.state = "ON" ∧
    TEMP_FAN_ON ≤ (46 : ℚ) ∧
    (analogFanStep { mainInit with fan := mainInit.fan.on } (some 46)).2 = [2] := by
  decide

/-- C7 amended: the analog-fan rule emits buzzer pattern C (2 pulses) on
every cycle in which temperature_analog ≥ TEMP_FAN_ON, regardless of the
previous fan state, together with turning the fan on. -/
theorem C7_beep_every_hot_cycle (s : LoopState) (t : ℚ) (h : TEMP_FAN_ON ≤ t) :
    analogFanStep s (some t) = ({ s with fan := s.fan.on }, [2]) := by
  simp [analogFanStep, if_pos h]

/-- C7 amended witness: the theorem applied with the fan already ON and
reading 46.0. -/
theorem C7_beep_every_hot_cycle_witness :
    analogFanStep { mainInit with fan := mainInit.fan.on } (some 46)
      = ({ mainInit with fan := (mainInit.fan.on).on }, [2]) :=
  C7_beep_every_hot_cycle { mainInit with fan := mainInit.fan.on } 46
    (by norm_num [TEMP_FAN_ON])

/-- C8: a malformed payload returns before touching any actuator, and a
command object whose cmd is not one of the six recognized strings falls
through the if/elif chain: relays, fan and buzzer are all untouched. -/
theorem C8_unknown_command_no_side_effects (s : LoopState)
    (cmd : Option String) (times : ℤ)
    (h1 : cmd ≠ some "relays_off") (h2 : cmd ≠ some "shutdown")
    (h3 : cmd ≠ some "fan_on") (h4 : cmd ≠ some "fan_off")
    (h5 : cmd ≠ some "beep") (h6 : cmd ≠ some "warning") :
    mqtt_message_callback .malformed s = (s, []) ∧
    mqtt_message_callback (.obj cmd times) s = (s, []) := by
  refine ⟨rfl, ?_⟩
  simp [mqtt_message_callback, h1, h2, h3, h4, h5, h6]

/-- C8 witness: the theorem applied at the initial state with the
unrecognized command string "frobnicate". -/
theorem C8_unknown_command_no_side_effects_witness :
    mqtt_message_callback .malformed mainInit = (mainInit, []) ∧
    mqtt_message_callback (.obj (some "frobnicate") 0) mainInit = (mainInit, []) :=
  C8_unknown_command_no_side_effects mainInit (some "frobnicate") 0
    (by decide) (by decide) (by decide) (by decide) (by decide) (by decide)

/-- C9: the accumulated cost estimate never decreases: the power reading
is an unsigned register value times a positive LSB — whether the LSB comes
from configure() with positive calibration and shunt, or is the fallback —
so the per-cycle increment is nonnegative for either setting of the
recording flag. -/
theorem C9_price_monotone (recording : Bool) (price_acc : ℚ) (raw : ℕ)
    (s0 : INA219) (calibration : ℤ) (shunt : ℚ)
    (hc : 0 < calibration) (hs : 0 < shunt) :
    price_acc ≤ priceStep recording price_acc
        ((s0.configure calibration (some shunt)).get_power raw) ∧
    price_acc ≤ priceStep recording price_acc ((INA219.init shunt).get_power raw) := by
  have key : ∀ p : ℚ, 0 ≤ p → price_acc ≤ priceStep recording price_acc p := by
    intro p hp
    unfold priceStep RATE_PER_KWH
    split
    · nlinarith
    · exact le_refl _
  constructor
  · apply key
    simp only [INA219.get_power, INA219.configure]
    have hcq : (0 : ℚ) < (calibration : ℚ) := by exact_mod_cast hc
    positivity
  · apply key
    simp only [INA219.get_power, INA219.init]
    positivity

/-- C9 witness: the theorem applied with recording enabled, accumulator 0,
raw power register 100, calibration 4096, shunt 0.1. -/
theorem C9_price_monotone_witness :
    (0 : ℚ) ≤ priceStep true 0
        (((INA219.init (1/10)).configure 4096 (some (1/10))).get_power 100) ∧
    (0 : ℚ) ≤ priceStep true 0 ((INA219.init (1/10)).get_power 100) :=
  C9_price_monotone true 0 100 (INA219.init (1/10)) 4096 (1/10)
    (by norm_num) (by norm_num)
